import Mathlib

/-
  Verification development for the mechanisms-execution core of the
  phobos_sw rover software (src/mech_exec/mech_exec.py).

  The Python module is shallowly embedded as follows:
  - the TOML configuration document (self.mech_exec) becomes a record of
    optional fields: a missing key in the document is a field holding none,
    and reading a missing key raises KeyError, modelled by the PyErr type;
  - numeric TOML values become rationals, board/channel indices naturals;
  - every hardware mutation performed through the adafruit ServoKit
    handles (setting a servo angle, a continuous-servo throttle, a
    channel actuation range, a channel pulse-width range) is recorded as
    an event; a function that can raise returns an Except PyErr value,
    and a loop that can raise mid-way returns the events emitted before
    the exception together with the optional exception;
  - the zmq REP socket interaction in handle_mech is driven by a
    RecvOutcome describing what the receive attempt produced, and the
    run loop consumes a finite list of such outcomes paired with the
    value of the global STOP_EXEC flag observed at that iteration.
-/

/-- Python exceptions that the embedded code can raise. -/
inductive PyErr where
  | keyError (k : String)
  | indexError
  | nameError (n : String)
  deriving DecidableEq, Repr

/-- Observable side effects on the hardware handles and the sockets. -/
inductive HwEvent where
  | setAngle (kit ch : Nat) (v : ℚ)
  | setThrottle (kit ch : Nat) (v : ℚ)
  | setActuationRange (kit ch : Nat) (v : ℚ)
  | setPulseWidth (kit ch : Nat) (lo hi : ℤ)
  | stopCalled
  | sendAck
  | closeRep
  | closePub
  deriving DecidableEq, Repr

/-- Events that touch an actuator channel (as opposed to the sockets or
the log). -/
def isDeviceEvent : HwEvent → Bool
  | .setAngle _ _ _ => true
  | .setThrottle _ _ _ => true
  | .setActuationRange _ _ _ => true
  | .setPulseWidth _ _ _ _ => true
  | _ => false

/-- The mech_exec TOML document.  Every field is optional: none models a
key that is absent from the document. -/
structure MechConfig where
  board_addresses : Option (List Nat)
  drv_idx_map : Option (List (Nat × Nat))
  str_idx_map : Option (List (Nat × Nat))
  arm_idx_map : Option (List (Nat × Nat))
  str_act_range_sk : Option (List ℚ)
  str_pw_range_min : Option (List ℚ)
  str_pw_range_max : Option (List ℚ)
  str_ang_rad_to_sk_coeffs : Option (List (ℚ × ℚ))
  arm_ang_rad_to_sk_coeffs : Option (List (ℚ × ℚ))
  str_ang_min_sk : Option (List ℚ)
  str_ang_max_sk : Option (List ℚ)
  arm_ang_min_sk : Option (List ℚ)
  arm_ang_max_sk : Option (List ℚ)
  drv_rate_norm_to_sk_coeffs : Option (List (ℚ × ℚ))
  drv_rate_min_sk : Option (List ℚ)
  drv_rate_max_sk : Option (List ℚ)

/-- A decoded demand batch (the JSON document received on the REP
socket).  The two sections are optional: a batch that lacks one models a
JSON object without that key, and dems of that key raises KeyError. -/
structure Dems where
  pos_rad : Option (List (String × ℚ))
  speed_rads : Option (List (String × ℚ))
  deriving DecidableEq

/-- Python int() truncation toward zero of a rational value. -/
def pyInt (q : ℚ) : ℤ := Int.tdiv q.num q.den

/-- The motor_id_dict literal built in Mechanisms.__init__. -/
def motor_id_dict (name : String) : Option Nat :=
  if name = "DrvFL" then some 0
  else if name = "DrvML" then some 1
  else if name = "DrvRL" then some 2
  else if name = "DrvFR" then some 3
  else if name = "DrvMR" then some 4
  else if name = "DrvRR" then some 5
  else if name = "StrFL" then some 0
  else if name = "StrML" then some 1
  else if name = "StrRL" then some 2
  else if name = "StrFR" then some 3
  else if name = "StrMR" then some 4
  else if name = "StrRR" then some 5
  else if name = "ArmBase" then some 0
  else if name = "ArmShoulder" then some 1
  else if name = "ArmElbow" then some 2
  else if name = "ArmWrist" then some 3
  else if name = "ArmGrabber" then some 4
  else none

/-- The keys of motor_id_dict in insertion order (iterated by stop()). -/
def motorKeys : List String :=
  ["DrvFL", "DrvML", "DrvRL", "DrvFR", "DrvMR", "DrvRR",
   "StrFL", "StrML", "StrRL", "StrFR", "StrMR", "StrRR",
   "ArmBase", "ArmShoulder", "ArmElbow", "ArmWrist", "ArmGrabber"]

/-- Lookup of the idx-map entry named by group.lower() + "_idx_map". -/
def idx_map_of (cfg : MechConfig) (grp : String) : Option (List (Nat × Nat)) :=
  if grp = "Str" then cfg.str_idx_map
  else if grp = "Arm" then cfg.arm_idx_map
  else if grp = "Drv" then cfg.drv_idx_map
  else none

/-- The key string group.lower() + "_idx_map" used in the KeyError. -/
def idx_map_key (grp : String) : String :=
  if grp = "Str" then "str_idx_map"
  else if grp = "Arm" then "arm_idx_map"
  else if grp = "Drv" then "drv_idx_map"
  else "_idx_map"

/-- Lookup of the coefficient array named by the f-string
group.lower() + "_ang_rad_to_sk_coeffs". -/
def ang_coeffs_of (cfg : MechConfig) (grp : String) : Option (List (ℚ × ℚ)) :=
  if grp = "Str" then cfg.str_ang_rad_to_sk_coeffs
  else if grp = "Arm" then cfg.arm_ang_rad_to_sk_coeffs
  else none

/-- The key string used in the KeyError for the coefficient array. -/
def ang_coeffs_key (grp : String) : String :=
  if grp = "Str" then "str_ang_rad_to_sk_coeffs"
  else if grp = "Arm" then "arm_ang_rad_to_sk_coeffs"
  else "_ang_rad_to_sk_coeffs"

/-- Lookup of the array named by group.lower() + "_ang_min_sk". -/
def ang_min_of (cfg : MechConfig) (grp : String) : Option (List ℚ) :=
  if grp = "Str" then cfg.str_ang_min_sk
  else if grp = "Arm" then cfg.arm_ang_min_sk
  else none

/-- The key string used in the KeyError for the min array. -/
def ang_min_key (grp : String) : String :=
  if grp = "Str" then "str_ang_min_sk"
  else if grp = "Arm" then "arm_ang_min_sk"
  else "_ang_min_sk"

/-- Lookup of the array named by group.lower() + "_ang_max_sk". -/
def ang_max_of (cfg : MechConfig) (grp : String) : Option (List ℚ) :=
  if grp = "Str" then cfg.str_ang_max_sk
  else if grp = "Arm" then cfg.arm_ang_max_sk
  else none

/-- The key string used in the KeyError for the max array. -/
def ang_max_key (grp : String) : String :=
  if grp = "Str" then "str_ang_max_sk"
  else if grp = "Arm" then "arm_ang_max_sk"
  else "_ang_max_sk"

/-- The motor_setting dictionary built by Mechanisms.load_setting. -/
structure MotorSetting where
  channel : Nat
  actuation_range : ℚ
  pulse_width : ℤ × ℤ
  servo_kit : Nat
  deriving DecidableEq, Repr

/-- Mechanisms.load_setting (mech_exec.py lines 76-93): looks the motor
index up in motor_id_dict, then builds the motor_setting dictionary,
reading the group idx map and the three steer-named arrays in the order
the dictionary literal evaluates them; any missing key raises KeyError
and any short array raises IndexError. -/
def load_setting (cfg : MechConfig) (name grp : String) : Except PyErr MotorSetting :=
  match motor_id_dict name with
  | none => .error (.keyError name)
  | some motor_idx =>
    match idx_map_of cfg grp with
    | none => .error (.keyError (idx_map_key grp))
    | some imap =>
      match imap.get? motor_idx with
      | none => .error .indexError
      | some row =>
        match cfg.str_act_range_sk with
        | none => .error (.keyError "str_act_range_sk")
        | some ar =>
          match ar.get? motor_idx with
          | none => .error .indexError
          | some actRange =>
            match cfg.str_pw_range_min with
            | none => .error (.keyError "str_pw_range_min")
            | some pmins =>
              match pmins.get? motor_idx with
              | none => .error .indexError
              | some pmin =>
                match cfg.str_pw_range_max with
                | none => .error (.keyError "str_pw_range_max")
                | some pmaxs =>
                  match pmaxs.get? motor_idx with
                  | none => .error .indexError
                  | some pmax =>
                    .ok { channel := row.2, actuation_range := actRange,
                          pulse_width := (pyInt pmin, pyInt pmax),
                          servo_kit := row.1 }

/-- Mechanisms.get_motor (mech_exec.py lines 59-74): loads the setting,
indexes the two-element servo_kits list, and for the Str and Arm groups
assigns the channel actuation range and pulse-width range before
returning the servo handle; for other groups it returns the
continuous-servo handle without touching the channel configuration.
The returned pair is (servo kit index, channel index) together with the
configuration events the call performed. -/
def get_motor (cfg : MechConfig) (name grp : String) :
    Except PyErr ((Nat × Nat) × List HwEvent) :=
  match load_setting cfg name grp with
  | .error e => .error e
  | .ok ms =>
    if 2 ≤ ms.servo_kit then .error .indexError
    else if grp = "Str" ∨ grp = "Arm" then
      if 16 ≤ ms.channel then .error .indexError
      else .ok ((ms.servo_kit, ms.channel),
        [.setActuationRange ms.servo_kit ms.channel ms.actuation_range,
         .setPulseWidth ms.servo_kit ms.channel ms.pulse_width.1 ms.pulse_width.2])
    else
      if 16 ≤ ms.channel then .error .indexError
      else .ok ((ms.servo_kit, ms.channel), [])

/-- One iteration of the position-demand loop of
Mechanisms.actuate_mech_dems (mech_exec.py lines 101-120): group is the
first three characters of the actuator id; entries of other groups are
skipped silently; Str and Arm entries look up the coefficient row, the
motor index, compute gain * position_rad + offset, clamp it with
max(min_sk, min(max_sk, pos_sk)), resolve the motor handle and assign
the angle. -/
def posEntry (cfg : MechConfig) (p : String × ℚ) : Except PyErr (List HwEvent) :=
  let act_id := p.1
  let grp := act_id.take 3
  if grp = "Str" ∨ grp = "Arm" then
    match ang_coeffs_of cfg grp with
    | none => .error (.keyError (ang_coeffs_key grp))
    | some cs =>
      match motor_id_dict act_id with
      | none => .error (.keyError act_id)
      | some idx =>
        match cs.get? idx with
        | none => .error .indexError
        | some row =>
          let pos_sk := row.1 * p.2 + row.2
          match ang_min_of cfg grp with
          | none => .error (.keyError (ang_min_key grp))
          | some los =>
            match los.get? idx with
            | none => .error .indexError
            | some lo =>
              match ang_max_of cfg grp with
              | none => .error (.keyError (ang_max_key grp))
              | some his =>
                match his.get? idx with
                | none => .error .indexError
                | some hi =>
                  match get_motor cfg act_id grp with
                  | .error e => .error e
                  | .ok (ref, evs) =>
                    .ok (evs ++ [.setAngle ref.1 ref.2 (max lo (min hi pos_sk))])
  else .ok []

/-- One iteration of the speed-demand loop of
Mechanisms.actuate_mech_dems (mech_exec.py lines 123-141): only Drv
entries act; others are skipped silently. -/
def speedEntry (cfg : MechConfig) (p : String × ℚ) : Except PyErr (List HwEvent) :=
  let act_id := p.1
  let grp := act_id.take 3
  if grp = "Drv" then
    match cfg.drv_rate_norm_to_sk_coeffs with
    | none => .error (.keyError "drv_rate_norm_to_sk_coeffs")
    | some cs =>
      match motor_id_dict act_id with
      | none => .error (.keyError act_id)
      | some idx =>
        match cs.get? idx with
        | none => .error .indexError
        | some row =>
          let rate_sk := row.1 * p.2 + row.2
          match cfg.drv_rate_min_sk with
          | none => .error (.keyError "drv_rate_min_sk")
          | some los =>
            match los.get? idx with
            | none => .error .indexError
            | some lo =>
              match cfg.drv_rate_max_sk with
              | none => .error (.keyError "drv_rate_max_sk")
              | some his =>
                match his.get? idx with
                | none => .error .indexError
                | some hi =>
                  match get_motor cfg act_id grp with
                  | .error e => .error e
                  | .ok (ref, evs) =>
                    .ok (evs ++ [.setThrottle ref.1 ref.2 (max lo (min hi rate_sk))])
  else .ok []

/-- Runs a Python for-loop whose body may raise: events emitted before
the raising iteration are kept, iterations after it never run. -/
def runSeq (f : α → Except PyErr (List HwEvent)) : List α → List HwEvent × Option PyErr
  | [] => ([], none)
  | x :: xs =>
    match f x with
    | .error e => ([], some e)
    | .ok evts =>
      match runSeq f xs with
      | (more, r) => (evts ++ more, r)

/-- Mechanisms.actuate_mech_dems (mech_exec.py lines 95-141): iterates
the pos_rad section, then the speed_rads section; accessing a missing
section raises KeyError; an exception in the position loop prevents the
speed loop from running. -/
def actuate_mech_dems (cfg : MechConfig) (d : Dems) : List HwEvent × Option PyErr :=
  match d.pos_rad with
  | none => ([], some (.keyError "pos_rad"))
  | some pos =>
    match runSeq (posEntry cfg) pos with
    | (evts1, some e) => (evts1, some e)
    | (evts1, none) =>
      match d.speed_rads with
      | none => (evts1, some (.keyError "speed_rads"))
      | some sp =>
        match runSeq (speedEntry cfg) sp with
        | (evts2, r) => (evts1 ++ evts2, r)

/-- One iteration of the loop in Mechanisms.stop (mech_exec.py lines
150-155): only keys whose first three characters are Drv act; the
right-hand side drv_rate_norm_to_sk_coeffs[motor_id_dict[motor]][1] is
evaluated before the get_motor call, then the throttle is assigned. -/
def stopMotor (cfg : MechConfig) (motor : String) : Except PyErr (List HwEvent) :=
  if motor.take 3 = "Drv" then
    match cfg.drv_rate_norm_to_sk_coeffs with
    | none => .error (.keyError "drv_rate_norm_to_sk_coeffs")
    | some cs =>
      match motor_id_dict motor with
      | none => .error (.keyError motor)
      | some idx =>
        match cs.get? idx with
        | none => .error .indexError
        | some row =>
          match get_motor cfg motor "Drv" with
          | .error e => .error e
          | .ok (ref, evs) =>
            .ok (evs ++ [.setThrottle ref.1 ref.2 row.2])
  else .ok []

/-- Mechanisms.stop (mech_exec.py lines 143-155): prints the marker
(recorded as the stopCalled event) and iterates over every key of
motor_id_dict. -/
def stop (cfg : MechConfig) : List HwEvent × Option PyErr :=
  match runSeq (stopMotor cfg) motorKeys with
  | (evts, r) => (.stopCalled :: evts, r)

/-- What a receive attempt on the REP socket produced. -/
inductive RecvOutcome where
  | timeout
  | zmqError
  | badPayload
  | msg (d : Dems)
  deriving DecidableEq

/-- handle_mech (mech_exec.py lines 198-232): a timeout leaves the rover
alone; a zmq error or an undecodable payload triggers Mechanisms.stop;
a decoded demand batch is acknowledged with the DemsOk literal before
actuate_mech_dems runs.  The Bool is the value the function returns;
when the Option PyErr is some, the exception propagated before the
return statement executed. -/
def handle_mech (cfg : MechConfig) : RecvOutcome → List HwEvent × Option PyErr × Bool
  | .timeout => ([], none, true)
  | .zmqError =>
    match stop cfg with
    | (evts, r) => (evts, r, true)
  | .badPayload =>
    match stop cfg with
    | (evts, r) => (evts, r, true)
  | .msg d =>
    match actuate_mech_dems cfg d with
    | (evts, r) => (.sendAck :: evts, r, true)

/-- Result of driving the run loop over a finite schedule. -/
inductive RunResult where
  | stillRunning
  | exited
  | crashed (e : PyErr)
  deriving DecidableEq

/-- run (mech_exec.py lines 157-196), driven by a finite schedule: each
schedule item is the outcome of the receive in that iteration paired
with the STOP_EXEC flag value that iteration observes.  While
run_controller stays true the loop keeps iterating; when it turns false
the rover is stopped and both sockets are closed; an uncaught exception
from handle_mech or stop crashes run without reaching those lines.  An
exhausted schedule with the controller still true means the loop is
still running. -/
def run (cfg : MechConfig) : List (RecvOutcome × Bool) → List HwEvent × RunResult
  | [] => ([], .stillRunning)
  | (r, stopExec) :: rest =>
    match handle_mech cfg r with
    | (evts, some e, _) => (evts, .crashed e)
    | (evts, none, ret) =>
      if ret && !stopExec then
        match run cfg rest with
        | (more, res) => (evts ++ more, res)
      else
        match stop cfg with
        | (sevts, some e) => (evts ++ sevts, .crashed e)
        | (sevts, none) => (evts ++ sevts ++ [.closeRep, .closePub], .exited)

/-- Mechanisms.__init__ together with init_eqpt (mech_exec.py lines
21-57): besides loading the two TOML documents and building
motor_id_dict, construction only reads board_addresses[0] and
board_addresses[1] to start the two ServoKit boards; no other
configuration key is touched. -/
def mechInit (cfg : MechConfig) : Except PyErr Unit :=
  match cfg.board_addresses with
  | none => .error (.keyError "board_addresses")
  | some bs =>
    match bs.get? 0 with
    | none => .error .indexError
    | some _ =>
      match bs.get? 1 with
      | none => .error .indexError
      | some _ => .ok ()

/-- A fully populated configuration document used as concrete input in
witnesses and counterexamples. -/
def cfg0 : MechConfig where
  board_addresses := some [64, 65]
  drv_idx_map := some [(0, 0), (0, 1), (0, 2), (0, 3), (0, 4), (0, 5)]
  str_idx_map := some [(0, 6), (0, 7), (0, 8), (1, 0), (1, 1), (1, 2)]
  arm_idx_map := some [(1, 3), (1, 4), (1, 5), (1, 6), (1, 7)]
  str_act_range_sk := some [180, 180, 180, 180, 180, 180]
  str_pw_range_min := some [500, 500, 500, 500, 500, 500]
  str_pw_range_max := some [2500, 2500, 2500, 2500, 2500, 2500]
  str_ang_rad_to_sk_coeffs := some [(60, 90), (60, 90), (60, 90), (60, 90), (60, 90), (60, 90)]
  arm_ang_rad_to_sk_coeffs := some [(60, 90), (60, 90), (60, 90), (60, 90), (60, 90)]
  str_ang_min_sk := some [0, 0, 0, 0, 0, 0]
  str_ang_max_sk := some [180, 180, 180, 180, 180, 180]
  arm_ang_min_sk := some [0, 0, 0, 0, 0]
  arm_ang_max_sk := some [180, 180, 180, 180, 180]
  drv_rate_norm_to_sk_coeffs := some [(1, 1/10), (1, 0), (1, 0), (1, 0), (1, 0), (1, 0)]
  drv_rate_min_sk := some [-1, -1, -1, -1, -1, -1]
  drv_rate_max_sk := some [1, 1, 1, 1, 1, 1]

/-- A configuration document that has the board address list but no
other key: used to show what construction does and does not validate. -/
def cfgBad : MechConfig where
  board_addresses := some [64, 65]
  drv_idx_map := none
  str_idx_map := none
  arm_idx_map := none
  str_act_range_sk := none
  str_pw_range_min := none
  str_pw_range_max := none
  str_ang_rad_to_sk_coeffs := none
  arm_ang_rad_to_sk_coeffs := none
  str_ang_min_sk := none
  str_ang_max_sk := none
  arm_ang_min_sk := none
  arm_ang_max_sk := none
  drv_rate_norm_to_sk_coeffs := none
  drv_rate_min_sk := none
  drv_rate_max_sk := none

/-- If each loop iteration that completes only emits events satisfying P,
every event the whole loop emits satisfies P (also when a later
iteration raises). -/
lemma runSeq_all {α : Type} {P : HwEvent → Prop} {f : α → Except PyErr (List HwEvent)}
    (hf : ∀ x evts, f x = .ok evts → ∀ e ∈ evts, P e) :
    ∀ l, ∀ e ∈ (runSeq f l).1, P e := by
  intro l
  induction l with
  | nil => intro e he; simp [runSeq] at he
  | cons x xs ih =>
    intro e he
    unfold runSeq at he
    cases hx : f x with
    | error err => rw [hx] at he; simp at he
    | ok evts =>
      rw [hx] at he
      rcases hp : runSeq f xs with ⟨more, r⟩
      rw [hp] at he
      simp only [List.mem_append] at he
      rcases he with h1 | h2
      · exact hf x evts hx e h1
      · exact ih e (by rw [hp]; exact h2)

/-- An iteration that completes with no events can be dropped from the
loop without changing anything. -/
lemma runSeq_skip {α : Type} {f : α → Except PyErr (List HwEvent)} {x : α}
    (hx : f x = .ok []) (pre post : List α) :
    runSeq f (pre ++ x :: post) = runSeq f (pre ++ post) := by
  induction pre with
  | nil => simp [runSeq, hx]
  | cons y ys ih =>
    simp only [List.cons_append]
    unfold runSeq
    rw [ih]

/-- get_motor called for the Drv group performs no channel
configuration: the continuous-servo branch emits no events. -/
lemma get_motor_drv_events {cfg : MechConfig} {n : String} {r : Nat × Nat}
    {evs : List HwEvent} (h : get_motor cfg n "Drv" = .ok (r, evs)) : evs = [] := by
  unfold get_motor at h
  cases hls : load_setting cfg n "Drv" with
  | error e => rw [hls] at h; simp at h
  | ok ms =>
    rw [hls] at h
    dsimp only at h
    by_cases h2 : 2 ≤ ms.servo_kit
    · rw [if_pos h2] at h; exact absurd h (by simp)
    · rw [if_neg h2, if_neg (by simp)] at h
      by_cases h16 : 16 ≤ ms.channel
      · rw [if_pos h16] at h; exact absurd h (by simp)
      · rw [if_neg h16] at h
        simp only [Except.ok.injEq, Prod.mk.injEq] at h
        exact h.2.symm

/-- Every event a successful get_motor call emits is a device event. -/
lemma get_motor_events_device {cfg : MechConfig} {n grp : String} {r : Nat × Nat}
    {evs : List HwEvent} (h : get_motor cfg n grp = .ok (r, evs)) :
    ∀ e ∈ evs, isDeviceEvent e = true := by
  unfold get_motor at h
  cases hls : load_setting cfg n grp with
  | error e => rw [hls] at h; simp at h
  | ok ms =>
    rw [hls] at h
    dsimp only at h
    by_cases h2 : 2 ≤ ms.servo_kit
    · rw [if_pos h2] at h; exact absurd h (by simp)
    · rw [if_neg h2] at h
      by_cases hg : grp = "Str" ∨ grp = "Arm"
      · rw [if_pos hg] at h
        by_cases h16 : 16 ≤ ms.channel
        · rw [if_pos h16] at h; exact absurd h (by simp)
        · rw [if_neg h16] at h
          simp only [Except.ok.injEq, Prod.mk.injEq] at h
          rw [← h.2]
          intro e he
          simp only [List.mem_cons, List.mem_singleton] at he
          rcases he with rfl | rfl | hfalse
          · rfl
          · rfl
          · exact absurd hfalse (by simp)
      · rw [if_neg hg] at h
        by_cases h16 : 16 ≤ ms.channel
        · rw [if_pos h16] at h; exact absurd h (by simp)
        · rw [if_neg h16] at h
          simp only [Except.ok.injEq, Prod.mk.injEq] at h
          rw [← h.2]
          intro e he
          exact absurd he (by simp)

/-- Every event a completed position-demand iteration emits is a device
event (a channel configuration or a channel write). -/
lemma posEntry_ok_events {cfg : MechConfig} {p : String × ℚ} {evts : List HwEvent}
    (h : posEntry cfg p = .ok evts) : ∀ e ∈ evts, isDeviceEvent e = true := by
  unfold posEntry at h
  dsimp only at h
  split at h
  · split at h
    · simp at h
    split at h
    · simp at h
    split at h
    · simp at h
    split at h
    · simp at h
    split at h
    · simp at h
    split at h
    · simp at h
    split at h
    · simp at h
    split at h
    · simp at h
    rename_i ref evs hgm
    simp only [Except.ok.injEq] at h
    rw [← h]
    intro e he
    simp only [List.mem_append, List.mem_singleton] at he
    rcases he with h1 | rfl
    · exact get_motor_events_device hgm e h1
    · rfl
  · simp only [Except.ok.injEq] at h
    rw [← h]
    intro e he
    exact absurd he (by simp)

/-- Every event a completed speed-demand iteration emits is a device
event. -/
lemma speedEntry_ok_events {cfg : MechConfig} {p : String × ℚ} {evts : List HwEvent}
    (h : speedEntry cfg p = .ok evts) : ∀ e ∈ evts, isDeviceEvent e = true := by
  unfold speedEntry at h
  dsimp only at h
  split at h
  · split at h
    · simp at h
    split at h
    · simp at h
    split at h
    · simp at h
    split at h
    · simp at h
    split at h
    · simp at h
    split at h
    · simp at h
    split at h
    · simp at h
    split at h
    · simp at h
    rename_i ref evs hgm
    simp only [Except.ok.injEq] at h
    rw [← h]
    intro e he
    simp only [List.mem_append, List.mem_singleton] at he
    rcases he with h1 | rfl
    · exact get_motor_events_device hgm e h1
    · rfl
  · simp only [Except.ok.injEq] at h
    rw [← h]
    intro e he
    exact absurd he (by simp)

/-- A completed stop iteration emits nothing for a non-Drv motor and a
single throttle write for a Drv motor. -/
lemma stopMotor_ok_events {cfg : MechConfig} {n : String} {evts : List HwEvent}
    (h : stopMotor cfg n = .ok evts) :
    ∀ e ∈ evts, ∃ k c v, e = HwEvent.setThrottle k c v := by
  unfold stopMotor at h
  split at h
  · split at h
    · simp at h
    split at h
    · simp at h
    split at h
    · simp at h
    split at h
    · simp at h
    rename_i ref evs hgm
    simp only [Except.ok.injEq] at h
    rw [← h]
    intro e he
    rw [get_motor_drv_events hgm] at he
    simp only [List.nil_append, List.mem_singleton] at he
    exact ⟨ref.1, ref.2, _, he⟩
  · simp only [Except.ok.injEq] at h
    rw [← h]
    intro e he
    exact absurd he (by simp)

/-- Every event actuate_mech_dems emits is a device event: actuation
never calls stop, never acknowledges and never closes a socket. -/
lemma actuate_events_device (cfg : MechConfig) (d : Dems) :
    ∀ e ∈ (actuate_mech_dems cfg d).1, isDeviceEvent e = true := by
  unfold actuate_mech_dems
  cases d.pos_rad with
  | none => intro e he; exact absurd he (by simp)
  | some pos =>
    dsimp only
    rcases h1 : runSeq (posEntry cfg) pos with ⟨evts1, r1⟩
    have hm1 : ∀ e ∈ evts1, isDeviceEvent e = true := by
      intro e he
      exact runSeq_all (fun x evts hx => posEntry_ok_events hx) pos e (by rw [h1]; exact he)
    cases r1 with
    | some e => exact hm1
    | none =>
      cases d.speed_rads with
      | none => exact hm1
      | some sp =>
        dsimp only
        rcases h2 : runSeq (speedEntry cfg) sp with ⟨evts2, r2⟩
        intro e he
        simp only [List.mem_append] at he
        rcases he with he | he
        · exact hm1 e he
        · exact runSeq_all (fun x evts hx => speedEntry_ok_events hx) sp e
            (by rw [h2]; exact he)

/-- Every event stop emits is the stop marker or a throttle write. -/
lemma stop_events_shape (cfg : MechConfig) :
    ∀ e ∈ (stop cfg).1, e = HwEvent.stopCalled ∨ ∃ k c v, e = HwEvent.setThrottle k c v := by
  unfold stop
  rcases hr : runSeq (stopMotor cfg) motorKeys with ⟨evts, r⟩
  intro e he
  simp only [List.mem_cons] at he
  rcases he with rfl | he
  · exact Or.inl rfl
  · exact Or.inr (runSeq_all (fun x evts hx => stopMotor_ok_events hx) motorKeys e
      (by rw [hr]; exact he))

/-- Claim C6: for every Steer/Arm actuator and every position demand
demand_rad, the commanded hardware value equals
gain * demand_rad + offset whenever that linear image lies within
the clamp range, and equals the lower or upper clamp bound
(saturation) whenever it lies outside; the demand is never dropped
(a setAngle write always
happens) and the commanded value never leaves the clamp range. -/
theorem c6_position_linear_clamped (cfg : MechConfig) (act grp : String) (d g o lo hi : ℚ)
    (idx : Nat) (cs : List (ℚ × ℚ)) (los his : List ℚ) (ref : Nat × Nat) (evs : List HwEvent)
    (hgrp : act.take 3 = grp) (hga : grp = "Str" ∨ grp = "Arm")
    (hcs : ang_coeffs_of cfg grp = some cs) (hidx : motor_id_dict act = some idx)
    (hrow : cs.get? idx = some (g, o))
    (hlos : ang_min_of cfg grp = some los) (hlo : los.get? idx = some lo)
    (hhis : ang_max_of cfg grp = some his) (hhi : his.get? idx = some hi)
    (hgm : get_motor cfg act grp = .ok (ref, evs)) (hle : lo ≤ hi) :
    posEntry cfg (act, d) = .ok (evs ++ [.setAngle ref.1 ref.2 (max lo (min hi (g * d + o)))])
    ∧ (lo ≤ g * d + o → g * d + o ≤ hi → max lo (min hi (g * d + o)) = g * d + o)
    ∧ ((g * d + o < lo ∨ hi < g * d + o) →
        max lo (min hi (g * d + o)) = lo ∨ max lo (min hi (g * d + o)) = hi)
    ∧ lo ≤ max lo (min hi (g * d + o)) ∧ max lo (min hi (g * d + o)) ≤ hi := by
  refine ⟨?_, ?_, ?_, ?_, ?_⟩
  · unfold posEntry
    dsimp only
    rw [hgrp, if_pos hga]
    simp only [hcs, hidx, hrow, hlos, hlo, hhis, hhi, hgm]
  · intro h1 h2
    rw [min_eq_right h2, max_eq_right h1]
  · intro h
    rcases h with h | h
    · left
      rw [min_eq_right (le_trans (le_of_lt h) hle), max_eq_left (le_of_lt h)]
    · right
      rw [min_eq_left (le_of_lt h), max_eq_right hle]
  · exact le_max_left _ _
  · exact max_le hle (min_le_left _ _)

theorem c6_position_linear_clamped_witness :
    posEntry cfg0 ("StrFL", 7) =
      .ok ([.setActuationRange 0 6 180, .setPulseWidth 0 6 500 2500] ++
        [.setAngle 0 6 (max 0 (min 180 (60 * 7 + 90)))])
    ∧ ((0 : ℚ) ≤ 60 * 7 + 90 → (60 * 7 + 90 : ℚ) ≤ 180 →
        max (0 : ℚ) (min 180 (60 * 7 + 90)) = 60 * 7 + 90)
    ∧ (((60 * 7 + 90 : ℚ) < 0 ∨ (180 : ℚ) < 60 * 7 + 90) →
        max (0 : ℚ) (min 180 (60 * 7 + 90)) = 0 ∨ max (0 : ℚ) (min 180 (60 * 7 + 90)) = 180)
    ∧ (0 : ℚ) ≤ max 0 (min 180 (60 * 7 + 90)) ∧ max (0 : ℚ) (min 180 (60 * 7 + 90)) ≤ 180 :=
  c6_position_linear_clamped cfg0 "StrFL" "Str" 7 60 90 0 180 0
    [(60, 90), (60, 90), (60, 90), (60, 90), (60, 90), (60, 90)]
    [0, 0, 0, 0, 0, 0] [180, 180, 180, 180, 180, 180] (0, 6)
    [.setActuationRange 0 6 180, .setPulseWidth 0 6 500 2500]
    rfl (Or.inl rfl) rfl rfl rfl rfl rfl rfl rfl rfl (by norm_num)

/-- Claim C1: for every Drive-group actuator, stop() commands the
hardware value gain * 0 + offset computed from that actuator's own
coefficient row of drv_rate_norm_to_sk_coeffs, not a hard-coded
constant; and stop iterates this per-motor step over every key of
motor_id_dict. -/
theorem c1_stop_uses_calibrated_zero_rate (cfg : MechConfig) (name : String) (idx : Nat)
    (cs : List (ℚ × ℚ)) (g o : ℚ) (ref : Nat × Nat) (evs : List HwEvent)
    (hd : name.take 3 = "Drv") (hidx : motor_id_dict name = some idx)
    (hcs : cfg.drv_rate_norm_to_sk_coeffs = some cs) (hrow : cs.get? idx = some (g, o))
    (hgm : get_motor cfg name "Drv" = .ok (ref, evs)) :
    stopMotor cfg name = .ok (evs ++ [.setThrottle ref.1 ref.2 (g * 0 + o)])
    ∧ (stop cfg).1 = HwEvent.stopCalled :: (runSeq (stopMotor cfg) motorKeys).1 := by
  constructor
  · unfold stopMotor
    rw [if_pos hd]
    simp only [hcs, hidx, hrow, hgm]
    rw [show g * 0 + o = o from by ring]
  · unfold stop
    rcases hr : runSeq (stopMotor cfg) motorKeys with ⟨evts, r⟩
    simp [hr]

theorem c1_stop_uses_calibrated_zero_rate_witness :
    stopMotor cfg0 "DrvFL" = .ok ([] ++ [.setThrottle 0 0 (1 * 0 + 1/10)])
    ∧ (stop cfg0).1 = HwEvent.stopCalled :: (runSeq (stopMotor cfg0) motorKeys).1 :=
  c1_stop_uses_calibrated_zero_rate cfg0 "DrvFL" 0
    [(1, 1/10), (1, 0), (1, 0), (1, 0), (1, 0), (1, 0)] 1 (1/10) (0, 0) []
    rfl rfl rfl rfl rfl

/-- Claim C8: stop() writes only to Drive-group actuator channels: a
motor key whose name does not start with Drv produces no hardware
write at all (in particular every Steer and Arm actuator is left at
its last commanded angle), and every event the whole stop emits is
the stop marker or a continuous-servo throttle write — never a servo
angle write or a channel configuration. -/
theorem c8_stop_writes_only_drive (cfg : MechConfig) (name : String)
    (h : name.take 3 ≠ "Drv") :
    stopMotor cfg name = .ok []
    ∧ ∀ e ∈ (stop cfg).1, e = HwEvent.stopCalled ∨ ∃ k c v, e = HwEvent.setThrottle k c v :=
  ⟨by unfold stopMotor; rw [if_neg h], stop_events_shape cfg⟩

theorem c8_stop_writes_only_drive_witness :
    stopMotor cfg0 "StrFL" = .ok []
    ∧ ∀ e ∈ (stop cfg0).1, e = HwEvent.stopCalled ∨ ∃ k c v, e = HwEvent.setThrottle k c v :=
  c8_stop_writes_only_drive cfg0 "StrFL" (by decide)

/-- Claim C10: load_setting reads the electrical actuation range and
the pulse-width bounds from the steer-named arrays str_act_range_sk,
str_pw_range_min and str_pw_range_max at the motor's group-local
index whatever the group is, so an Arm actuator receives the timing
parameters stored at its index in the steer arrays. -/
theorem c10_timing_from_steer_arrays (cfg : MechConfig) (name grp : String) (idx : Nat)
    (m : List (Nat × Nat)) (row : Nat × Nat) (ar : List ℚ) (a : ℚ)
    (p1s : List ℚ) (p1 : ℚ) (p2s : List ℚ) (p2 : ℚ)
    (hidx : motor_id_dict name = some idx)
    (him : idx_map_of cfg grp = some m) (hrow : m.get? idx = some row)
    (har : cfg.str_act_range_sk = some ar) (ha : ar.get? idx = some a)
    (hp1s : cfg.str_pw_range_min = some p1s) (hp1 : p1s.get? idx = some p1)
    (hp2s : cfg.str_pw_range_max = some p2s) (hp2 : p2s.get? idx = some p2) :
    load_setting cfg name grp =
      .ok { channel := row.2, actuation_range := a,
            pulse_width := (pyInt p1, pyInt p2), servo_kit := row.1 } := by
  unfold load_setting
  simp only [hidx, him, hrow, har, ha, hp1s, hp1, hp2s, hp2]

theorem c10_timing_from_steer_arrays_witness :
    load_setting cfg0 "ArmBase" "Arm" =
      .ok { channel := 3, actuation_range := 180,
            pulse_width := (pyInt 500, pyInt 2500), servo_kit := 1 } :=
  c10_timing_from_steer_arrays cfg0 "ArmBase" "Arm" 0
    [(1, 3), (1, 4), (1, 5), (1, 6), (1, 7)] (1, 3)
    [180, 180, 180, 180, 180, 180] 180
    [500, 500, 500, 500, 500, 500] 500
    [2500, 2500, 2500, 2500, 2500, 2500] 2500
    rfl rfl rfl rfl rfl rfl rfl rfl rfl

/-- Claim C5, corrected: resolving a Steer/Arm actuator is not a pure
lookup — every successful get_motor call re-applies the channel's
actuation range and pulse-width timing, emitting two configuration
side effects per resolution; the configuration is not applied once at
construction time. -/
theorem c5_reconfig_every_resolution_amended (cfg : MechConfig) (n grp : String)
    (ms : MotorSetting) (hga : grp = "Str" ∨ grp = "Arm")
    (hls : load_setting cfg n grp = .ok ms)
    (hk : ¬ 2 ≤ ms.servo_kit) (hc : ¬ 16 ≤ ms.channel) :
    get_motor cfg n grp = .ok ((ms.servo_kit, ms.channel),
      [.setActuationRange ms.servo_kit ms.channel ms.actuation_range,
       .setPulseWidth ms.servo_kit ms.channel ms.pulse_width.1 ms.pulse_width.2])
    ∧ ([HwEvent.setActuationRange ms.servo_kit ms.channel ms.actuation_range,
        HwEvent.setPulseWidth ms.servo_kit ms.channel ms.pulse_width.1 ms.pulse_width.2] :
        List HwEvent) ≠ [] := by
  constructor
  · unfold get_motor
    rw [hls]
    dsimp only
    rw [if_neg hk, if_pos hga, if_neg hc]
  · simp

/-- Claim C5 fails on the code at a concrete input: a single resolution
of StrFL emits two hardware-configuration side effects, so resolution
is not a side-effect-free pure lookup. -/
theorem c5_resolution_has_side_effects_counterexample :
    get_motor cfg0 "StrFL" "Str" =
      .ok ((0, 6), [.setActuationRange 0 6 180, .setPulseWidth 0 6 500 2500])
    ∧ ([HwEvent.setActuationRange 0 6 180, HwEvent.setPulseWidth 0 6 500 2500] :
        List HwEvent) ≠ [] :=
  ⟨rfl, by simp⟩

theorem c5_reconfig_every_resolution_amended_witness :
    get_motor cfg0 "StrFL" "Str" =
      .ok ((0, 6), [.setActuationRange 0 6 180, .setPulseWidth 0 6 500 2500])
    ∧ ([HwEvent.setActuationRange 0 6 180, HwEvent.setPulseWidth 0 6 500 2500] :
        List HwEvent) ≠ [] :=
  c5_reconfig_every_resolution_amended cfg0 "StrFL" "Str"
    { channel := 6, actuation_range := 180, pulse_width := (pyInt 500, pyInt 2500),
      servo_kit := 0 }
    (Or.inl rfl) rfl (by decide) (by decide)

/-- Claim C2, corrected: an entry of the position map whose ActuatorId
does not start with Str or Arm is skipped silently — the rest of the
batch is processed exactly as if the entry were absent, with no
hardware write and no logged error for it; but an entry whose id
starts with Str and is absent from motor_id_dict raises an uncaught
KeyError naming the id, which aborts the remaining entries of the
batch instead of being skipped. -/
theorem c2_unknown_id_handling_amended :
    (∀ (cfg : MechConfig) (pre post : List (String × ℚ)) (id : String) (v : ℚ)
        (sp : Option (List (String × ℚ))),
        id.take 3 ≠ "Str" → id.take 3 ≠ "Arm" →
        actuate_mech_dems cfg ⟨some (pre ++ (id, v) :: post), sp⟩
          = actuate_mech_dems cfg ⟨some (pre ++ post), sp⟩)
    ∧ (∀ (cfg : MechConfig) (id : String) (v : ℚ) (cs : List (ℚ × ℚ)),
        id.take 3 = "Str" → motor_id_dict id = none →
        cfg.str_ang_rad_to_sk_coeffs = some cs →
        posEntry cfg (id, v) = .error (.keyError id)) := by
  constructor
  · intro cfg pre post id v sp h1 h2
    have hskip : posEntry cfg (id, v) = .ok [] := by
      unfold posEntry
      dsimp only
      rw [if_neg (not_or.mpr ⟨h1, h2⟩)]
    unfold actuate_mech_dems
    dsimp only
    rw [runSeq_skip hskip]
  · intro cfg id v cs h1 h2 h3
    unfold posEntry
    dsimp only
    rw [h1, if_pos (Or.inl rfl)]
    have hc : ang_coeffs_of cfg "Str" = some cs := by
      unfold ang_coeffs_of
      simp [h3]
    simp only [hc, h2]

/-- Claim C2 fails on the code at a concrete input: a batch holding the
unknown id StrXX before the valid entry StrFL aborts with a KeyError
and performs zero hardware writes, instead of skipping the unknown
entry and writing the valid one. -/
theorem c2_unknown_id_aborts_batch_counterexample :
    actuate_mech_dems cfg0 ⟨some [("StrXX", 0), ("StrFL", 0)], some []⟩
      = ([], some (.keyError "StrXX")) := rfl

theorem c2_unknown_id_handling_amended_witness :
    actuate_mech_dems cfg0 ⟨some [("StrFL", 0), ("Foo", 0)], some []⟩
      = actuate_mech_dems cfg0 ⟨some [("StrFL", 0)], some []⟩
    ∧ posEntry cfg0 ("StrXY", 0) = .error (.keyError "StrXY") :=
  ⟨c2_unknown_id_handling_amended.1 cfg0 [("StrFL", 0)] [] "Foo" 0 (some [])
      (by decide) (by decide),
   c2_unknown_id_handling_amended.2 cfg0 "StrXY" 0 _ (by decide) rfl rfl⟩

/-- Claim C3, corrected: construction validates only the board address
list (its presence and its first two entries); every other
configuration key — in particular the steer coefficient array — is
left unexamined, so a document missing it still constructs
successfully and the miss surfaces only as a KeyError at the first
Steer position demand, long after startup. -/
theorem c3_lazy_config_validation_amended (cfg : MechConfig) (bs : List Nat) (a b : Nat)
    (h1 : cfg.board_addresses = some bs) (h2 : bs.get? 0 = some a) (h3 : bs.get? 1 = some b) :
    mechInit cfg = .ok ()
    ∧ (cfg.str_ang_rad_to_sk_coeffs = none → ∀ (id : String) (v : ℚ), id.take 3 = "Str" →
        posEntry cfg (id, v) = .error (.keyError "str_ang_rad_to_sk_coeffs")) := by
  constructor
  · unfold mechInit
    simp only [h1, h2, h3]
  · intro hnone id v hid
    unfold posEntry
    dsimp only
    rw [hid, if_pos (Or.inl rfl)]
    have hc : ang_coeffs_of cfg "Str" = none := by
      unfold ang_coeffs_of
      simp [hnone]
    have hk : ang_coeffs_key "Str" = "str_ang_rad_to_sk_coeffs" := rfl
    simp only [hc, hk]

/-- Claim C3 fails on the code at a concrete input: a document with the
board addresses but without the steer coefficient array constructs
successfully — no error at startup — and the missing array only
raises a KeyError when a Steer position demand is actuated. -/
theorem c3_missing_array_not_detected_counterexample :
    mechInit cfgBad = .ok ()
    ∧ cfgBad.str_ang_rad_to_sk_coeffs = none
    ∧ posEntry cfgBad ("StrFL", 0) = .error (.keyError "str_ang_rad_to_sk_coeffs") :=
  ⟨rfl, rfl, rfl⟩

theorem c3_lazy_config_validation_amended_witness :
    mechInit cfgBad = .ok ()
    ∧ (cfgBad.str_ang_rad_to_sk_coeffs = none → ∀ (id : String) (v : ℚ), id.take 3 = "Str" →
        posEntry cfgBad (id, v) = .error (.keyError "str_ang_rad_to_sk_coeffs")) :=
  c3_lazy_config_validation_amended cfgBad [64, 65] 64 65 rfl rfl rfl

/-- Claim C7, corrected: the DemsOk acknowledgement is sent after a
successful receive and decode but before actuation runs, so a decoded
command whose actuation then fails has already been acknowledged; the
absence of a reply signals only a receive timeout or a receive or
decode failure (those paths never send the acknowledgement). -/
theorem c7_ack_before_actuation_amended (cfg : MechConfig) (d : Dems) :
    (handle_mech cfg (.msg d)).1.head? = some HwEvent.sendAck
    ∧ (handle_mech cfg .timeout).1 = []
    ∧ HwEvent.sendAck ∉ (handle_mech cfg .zmqError).1
    ∧ HwEvent.sendAck ∉ (handle_mech cfg .badPayload).1 := by
  refine ⟨?_, rfl, ?_, ?_⟩
  · unfold handle_mech
    dsimp only
    rcases ha : actuate_mech_dems cfg d with ⟨evts, r⟩
    rfl
  · intro hmem
    unfold handle_mech at hmem
    rcases hs : stop cfg with ⟨evts, r⟩
    rw [hs] at hmem
    dsimp only at hmem
    have hshape := stop_events_shape cfg HwEvent.sendAck (by rw [hs]; exact hmem)
    rcases hshape with h | ⟨k, c, v, h⟩ <;> simp at h
  · intro hmem
    unfold handle_mech at hmem
    rcases hs : stop cfg with ⟨evts, r⟩
    rw [hs] at hmem
    dsimp only at hmem
    have hshape := stop_events_shape cfg HwEvent.sendAck (by rw [hs]; exact hmem)
    rcases hshape with h | ⟨k, c, v, h⟩ <;> simp at h

/-- Claim C7 fails on the code at a concrete input: a decoded batch
lacking the pos_rad section fails actuation with a KeyError, yet the
DemsOk acknowledgement has already been sent to the commander. -/
theorem c7_ack_despite_failed_actuation_counterexample :
    handle_mech cfg0 (.msg ⟨none, none⟩)
      = ([HwEvent.sendAck], some (.keyError "pos_rad"), true) := rfl

/-- Claim C9: if actuating a demand batch raises — for example when the
batch lacks the pos_rad section, or an entry with a recognised group
prefix is absent from motor_id_dict — the exception propagates
uncaught out of handle_mech and out of the run loop: the loop crashes
with that exception, stop() is never invoked on the way out and
neither channel socket is closed. -/
theorem c9_actuation_exception_escapes (cfg : MechConfig) (d : Dems) (b : Bool)
    (rest : List (RecvOutcome × Bool)) (e : PyErr)
    (he : (actuate_mech_dems cfg d).2 = some e) :
    run cfg ((.msg d, b) :: rest)
      = (HwEvent.sendAck :: (actuate_mech_dems cfg d).1, .crashed e)
    ∧ HwEvent.stopCalled ∉ (run cfg ((.msg d, b) :: rest)).1
    ∧ HwEvent.closeRep ∉ (run cfg ((.msg d, b) :: rest)).1
    ∧ HwEvent.closePub ∉ (run cfg ((.msg d, b) :: rest)).1 := by
  rcases ha : actuate_mech_dems cfg d with ⟨evts, r⟩
  rw [ha] at he
  dsimp only at he
  subst he
  have hrun : run cfg ((.msg d, b) :: rest) = (HwEvent.sendAck :: evts, .crashed e) := by
    unfold run handle_mech
    dsimp only
    rw [ha]
  have hdev : ∀ x ∈ evts, isDeviceEvent x = true := by
    intro x hx
    exact actuate_events_device cfg d x (by rw [ha]; exact hx)
  refine ⟨by exact hrun, ?_, ?_, ?_⟩
  · rw [hrun]
    intro hm
    rcases List.mem_cons.mp hm with h | h
    · exact absurd h (by simp)
    · have hx := hdev _ h
      simp [isDeviceEvent] at hx
  · rw [hrun]
    intro hm
    rcases List.mem_cons.mp hm with h | h
    · exact absurd h (by simp)
    · have hx := hdev _ h
      simp [isDeviceEvent] at hx
  · rw [hrun]
    intro hm
    rcases List.mem_cons.mp hm with h | h
    · exact absurd h (by simp)
    · have hx := hdev _ h
      simp [isDeviceEvent] at hx

theorem c9_actuation_exception_escapes_witness :
    run cfg0 [(.msg ⟨none, none⟩, false)]
      = (HwEvent.sendAck :: (actuate_mech_dems cfg0 ⟨none, none⟩).1,
         .crashed (.keyError "pos_rad"))
    ∧ HwEvent.stopCalled ∉ (run cfg0 [(.msg ⟨none, none⟩, false)]).1
    ∧ HwEvent.closeRep ∉ (run cfg0 [(.msg ⟨none, none⟩, false)]).1
    ∧ HwEvent.closePub ∉ (run cfg0 [(.msg ⟨none, none⟩, false)]).1 :=
  c9_actuation_exception_escapes cfg0 ⟨none, none⟩ false [] (.keyError "pos_rad") rfl

/-- Claim C4 fails on the code at a concrete input: on the schedule of
a zmq transport error followed by a valid position demand, the stop
action is triggered (stopCalled and the throttle writes) but the
command loop does not terminate — the following demand batch is
acknowledged and actuated (a servo angle is commanded after the stop
events) and the loop is still running afterwards. -/
theorem c4_loop_continues_after_transport_error :
    run cfg0 [(.zmqError, false), (.msg ⟨some [("StrFL", 0)], some []⟩, false)]
      = ([.stopCalled, .setThrottle 0 0 (1/10), .setThrottle 0 1 0, .setThrottle 0 2 0,
          .setThrottle 0 3 0, .setThrottle 0 4 0, .setThrottle 0 5 0,
          .sendAck, .setActuationRange 0 6 180, .setPulseWidth 0 6 500 2500,
          .setAngle 0 6 90], .stillRunning) := by
  have base : run cfg0 [(.zmqError, false), (.msg ⟨some [("StrFL", 0)], some []⟩, false)]
      = ([.stopCalled, .setThrottle 0 0 (1/10), .setThrottle 0 1 0, .setThrottle 0 2 0,
          .setThrottle 0 3 0, .setThrottle 0 4 0, .setThrottle 0 5 0,
          .sendAck, .setActuationRange 0 6 180, .setPulseWidth 0 6 500 2500,
          .setAngle 0 6 (max 0 (min 180 (60 * 0 + 90)))], .stillRunning) := rfl
  rw [base, show max (0 : ℚ) (min 180 (60 * 0 + 90)) = 90 by norm_num]

/-- One step of the run loop, stated as an equation. -/
lemma run_cons (cfg : MechConfig) (r : RecvOutcome) (s : Bool)
    (rest : List (RecvOutcome × Bool)) :
    run cfg ((r, s) :: rest) =
      match handle_mech cfg r with
      | (evts, some e, _) => (evts, .crashed e)
      | (evts, none, ret) =>
        if ret && !s then
          match run cfg rest with
          | (more, res) => (evts ++ more, res)
        else
          match stop cfg with
          | (sevts, some e) => (evts ++ sevts, .crashed e)
          | (sevts, none) => (evts ++ sevts ++ [.closeRep, .closePub], .exited) := rfl

/-- Claim C4, corrected: a channel-level transport error triggers the
stop action inside handle_mech, but handle_mech still returns True,
so the command loop keeps iterating: processing continues with the
rest of the schedule exactly as if no error had happened, and any
later demand batch is still actuated.  Only the external STOP_EXEC
flag ends the loop. -/
theorem c4_stop_without_termination_amended (cfg : MechConfig)
    (rest : List (RecvOutcome × Bool)) (evts : List HwEvent)
    (hs : stop cfg = (evts, none)) :
    handle_mech cfg .zmqError = (evts, none, true)
    ∧ run cfg ((.zmqError, false) :: rest)
        = (evts ++ (run cfg rest).1, (run cfg rest).2) := by
  have hh : handle_mech cfg .zmqError = (evts, none, true) := by
    unfold handle_mech
    rw [hs]
  refine ⟨hh, ?_⟩
  rw [run_cons, hh]
  dsimp only
  rcases hrr : run cfg rest with ⟨more, res⟩
  rfl

theorem c4_stop_without_termination_amended_witness :
    handle_mech cfg0 .zmqError
      = ([.stopCalled, .setThrottle 0 0 (1/10), .setThrottle 0 1 0, .setThrottle 0 2 0,
          .setThrottle 0 3 0, .setThrottle 0 4 0, .setThrottle 0 5 0], none, true)
    ∧ run cfg0 [(.zmqError, false)]
      = ([.stopCalled, .setThrottle 0 0 (1/10), .setThrottle 0 1 0, .setThrottle 0 2 0,
          .setThrottle 0 3 0, .setThrottle 0 4 0, .setThrottle 0 5 0] ++ (run cfg0 []).1,
         (run cfg0 []).2) :=
  c4_stop_without_termination_amended cfg0 []
    [.stopCalled, .setThrottle 0 0 (1/10), .setThrottle 0 1 0, .setThrottle 0 2 0,
     .setThrottle 0 3 0, .setThrottle 0 4 0, .setThrottle 0 5 0] rfl
